import Mathlib

/-!
Verification of the SignalGoProxy connection pipeline.

This file is a shallow embedding, in Lean 4, of the connection-handling
pipeline of the SignalGoProxy repository: the protocol sniffer
(internal/proxy/sniper.go), the ClientHello parser and the Signal relay
dispatch (internal/proxy/handler.go), the decoy responders
(internal/stealth/apache.go, internal/stealth/proxy.go) and the
configuration loader (internal/config).

Modelling conventions:
  * Byte streams are lists of natural numbers; every byte produced by the
    serializers below is below 256.  A client connection is a list of
    chunks, one chunk per successful Read of the underlying connection.
  * The bufio.Reader wrapping the client connection is a pair of the
    buffered-but-unconsumed bytes and the chunks not yet read from the
    underlying connection.  Its 4096-byte internal buffer is modelled as
    unbounded; every record and peek in the claims is far below 4096.
  * Wall-clock time is Unix seconds as an integer; the process-local PRNG
    draw of math/rand Intn is an arbitrary natural number reduced modulo
    the bound, and Go AddDate with day offsets is day-times-86400 seconds
    (exact in a fixed-offset zone such as UTC).
  * Go strings are Lean strings; string-to-byte conversions map each
    character to its code point, which agrees with Go for the ASCII data
    handled here (SNI host names, HTTP method tokens, header text).
  * Fallible operations return Except or Option values mirroring the
    error strings of the source.
-/

/-- Decidable equality for Except values, used to evaluate parser results
on concrete inputs. -/
instance {α β : Type} [DecidableEq α] [DecidableEq β] : DecidableEq (Except α β) := fun a b =>
  match a, b with
  | .ok x, .ok y =>
      if h : x = y then isTrue (by rw [h]) else isFalse (by intro hc; cases hc; exact h rfl)
  | .error x, .error y =>
      if h : x = y then isTrue (by rw [h]) else isFalse (by intro hc; cases hc; exact h rfl)
  | .ok _, .error _ => isFalse (by intro hc; cases hc)
  | .error _, .ok _ => isFalse (by intro hc; cases hc)

/-- Bytes of a Go string: one code point per character (ASCII data only). -/
def strBytes (s : String) : List Nat := s.data.map Char.toNat

/-- ASCII lowercasing of one character, the fragment of strings.ToLower
exercised by host names and mode tokens. -/
def lowerChar (c : Char) : Char :=
  if 65 ≤ c.toNat ∧ c.toNat ≤ 90 then Char.ofNat (c.toNat + 32) else c

/-- Model of strings.ToLower restricted to ASCII input. -/
def toLowerStr (s : String) : String := ⟨s.data.map lowerChar⟩

/-- Interpretation of a byte list as a Go string (ASCII fragment of the
UTF-8 decoding performed by string(hostName)). -/
def stringOfBytes (bs : List Nat) : String := ⟨bs.map Char.ofNat⟩

/-- Takes-a-prefix test on byte lists, mirroring strings.HasPrefix applied
to the peeked bytes. -/
def beginsWith (p bs : List Nat) : Bool := bs.take p.length == p

/-! ## The buffered reader (bufio.Reader over the client connection) -/

/-- State of the bufio.Reader wrapping one client connection: the bytes
already pulled from the connection into the buffer but not yet consumed,
and the chunks the underlying connection will still deliver, one chunk per
Read call. -/
structure BufReader where
  buf : List Nat
  chunks : List (List Nat)
deriving DecidableEq, Repr

/-- All bytes a consumer of the buffered reader can still observe:
buffered bytes first, then the remaining chunks in order. -/
def availBytes (st : BufReader) : List Nat := st.buf ++ st.chunks.flatten

/-- The fill loop behind bufio Peek and Read: pull whole chunks from the
underlying connection into the buffer until at least n bytes are buffered
or the connection is exhausted. -/
def fillLoop (n : Nat) : List Nat → List (List Nat) → List Nat × List (List Nat)
  | buf, [] => (buf, [])
  | buf, c :: cs => if n ≤ buf.length then (buf, c :: cs) else fillLoop n (buf ++ c) cs

/-- Buffered-reader state after filling towards n available bytes. -/
def fillTo (n : Nat) (st : BufReader) : BufReader :=
  let p := fillLoop n st.buf st.chunks
  ⟨p.1, p.2⟩

/-- io.ReadFull on the buffered reader: fill towards n bytes, then consume
exactly n from the buffer; None models the EOF / ErrUnexpectedEOF error of
a short stream.  Bytes pulled into the buffer beyond the n consumed stay
in the buffer. -/
def readFull (n : Nat) (st : BufReader) : Option (List Nat × BufReader) :=
  let st2 := fillTo n st
  if n ≤ st2.buf.length then some (st2.buf.take n, ⟨st2.buf.drop n, st2.chunks⟩) else none

/-! ## Protocol sniffer (internal/proxy/sniper.go) -/

/-- Protocol classification, mirroring the Protocol constants of
internal/proxy/sniper.go. -/
inductive Protocol where
  | ProtoSignalTLS
  | ProtoHTTP
  | ProtoUnknown
deriving DecidableEq, Repr

/-- The HTTP-method prefix test of sniffProtocol: the chain of
strings.HasPrefix checks, in source order. -/
def startsWithHTTPMethod (bs : List Nat) : Bool :=
  beginsWith (strBytes "GET ") bs ||
  beginsWith (strBytes "POST ") bs ||
  beginsWith (strBytes "HEAD ") bs ||
  beginsWith (strBytes "PUT ") bs ||
  beginsWith (strBytes "DELETE ") bs ||
  beginsWith (strBytes "OPTIONS ") bs ||
  beginsWith (strBytes "PATCH ") bs ||
  beginsWith (strBytes "CONNECT ") bs

/-- Pure classification of the result of Peek(8).  A peeked list shorter
than 8 bytes corresponds to Peek returning io.EOF or io.ErrUnexpectedEOF:
the source then only recognises the TLS handshake byte and otherwise falls
through to ProtoUnknown, skipping the HTTP method check. -/
def classify8 (peeked : List Nat) : Protocol :=
  if peeked.length < 8 then
    match peeked with
    | [] => .ProtoUnknown
    | b :: _ => if b == 22 then .ProtoSignalTLS else .ProtoUnknown
  else
    match peeked with
    | [] => .ProtoUnknown
    | b :: _ =>
        if b == 22 then .ProtoSignalTLS
        else if startsWithHTTPMethod peeked then .ProtoHTTP
        else .ProtoUnknown

/-- sniffProtocol of internal/proxy/sniper.go: peek up to 8 bytes without
consuming them and classify.  The returned state is the reader after the
peek (bytes moved into the buffer, none consumed). -/
def sniffProtocol (st : BufReader) : Protocol × BufReader :=
  let st2 := fillTo 8 st
  (classify8 (st2.buf.take 8), st2)

/-! ## cryptobyte primitives used by getSNI -/

/-- cryptobyte ReadUint8. -/
def readU8 : List Nat → Option (Nat × List Nat)
  | [] => none
  | b :: rest => some (b, rest)

/-- cryptobyte ReadUint16 (big endian). -/
def readU16 : List Nat → Option (Nat × List Nat)
  | a :: b :: rest => some (a * 256 + b, rest)
  | _ => none

/-- cryptobyte Skip. -/
def skipN (n : Nat) (s : List Nat) : Option (List Nat) :=
  if n ≤ s.length then some (s.drop n) else none

/-- cryptobyte ReadUint8LengthPrefixed. -/
def readU8LP (s : List Nat) : Option (List Nat × List Nat) :=
  match readU8 s with
  | none => none
  | some (n, rest) => if n ≤ rest.length then some (rest.take n, rest.drop n) else none

/-- cryptobyte ReadUint16LengthPrefixed. -/
def readU16LP (s : List Nat) : Option (List Nat × List Nat) :=
  match readU16 s with
  | none => none
  | some (n, rest) => if n ≤ rest.length then some (rest.take n, rest.drop n) else none

/-- cryptobyte ReadUint24LengthPrefixed. -/
def readU24LP : List Nat → Option (List Nat × List Nat)
  | a :: b :: c :: rest =>
      let n := a * 65536 + b * 256 + c
      if n ≤ rest.length then some (rest.take n, rest.drop n) else none
  | _ => none

/-! ## ClientHello parser (getSNI of internal/proxy/handler.go) -/

/-- The extension-scanning loop of getSNI.  The fuel argument starts at
the byte length of the extensions block; each iteration consumes at least
four bytes, so the fuel never runs out before the loop exits (empty block,
parse error, or server_name found).  Returns the empty string when the
loop completes without finding the server_name extension, exactly as the
serverName variable of the source. -/
def findServerNameFuel : Nat → List Nat → Except String String
  | _, [] => .ok ""
  | 0, _ :: _ => .error "error parsing extension"
  | fuel + 1, exts =>
      match readU16 exts with
      | none => .error "error parsing extension"
      | some (extType, rest1) =>
          match readU16LP rest1 with
          | none => .error "error parsing extension"
          | some (extData, rest2) =>
              if extType == 0 then
                match readU16LP extData with
                | none => .error "error parsing server_name extension"
                | some (serverNameList, _) =>
                    if serverNameList.isEmpty then .error "error parsing server_name extension"
                    else
                      match readU8 serverNameList with
                      | none => .error "error parsing host_name"
                      | some (nameType, rest3) =>
                          if nameType != 0 then .error "error parsing host_name"
                          else
                            match readU16LP rest3 with
                            | none => .error "error parsing host_name"
                            | some (hostName, _) =>
                                if hostName.isEmpty then .error "error parsing host_name"
                                else .ok (stringOfBytes hostName)
              else findServerNameFuel fuel rest2

/-- Scan an extensions block for the server_name host name. -/
def findServerName (exts : List Nat) : Except String String :=
  findServerNameFuel exts.length exts

/-- The ClientHello body walk of getSNI, applied to the record body after
the 5-byte record header has been read.  Mirrors the cryptobyte calls of
the source line by line; in particular the legacy session id is skipped
with Skip(1), which consumes only its length byte. -/
def parseClientHelloBody (recordBody : List Nat) : Except String String :=
  match readU8 recordBody with
  | none => .error "not a ClientHello message"
  | some (msgType, s1) =>
      if msgType != 1 then .error "not a ClientHello message"
      else
        match readU24LP s1 with
        | none => .error "not a ClientHello message"
        | some (clientHello, _) =>
            match skipN 2 clientHello with
            | none => .error "error parsing ClientHello header"
            | some s2 =>
                match skipN 32 s2 with
                | none => .error "error parsing ClientHello header"
                | some s3 =>
                    match skipN 1 s3 with
                    | none => .error "error parsing session id"
                    | some s4 =>
                        match readU16LP s4 with
                        | none => .error "error parsing cipher suites"
                        | some (_, s5) =>
                            match readU8LP s5 with
                            | none => .error "error parsing compression methods"
                            | some (_, s6) =>
                                if s6.isEmpty then .error "no extensions found"
                                else
                                  match readU16LP s6 with
                                  | none => .error "error parsing extensions"
                                  | some (extensions, _) =>
                                      match findServerName extensions with
                                      | .error e => .error e
                                      | .ok name =>
                                          if name = "" then .error "SNI not found in ClientHello"
                                          else .ok name

/-- getSNI of internal/proxy/handler.go: read the 5-byte record header and
the record body off the buffered reader with io.ReadFull, check the
handshake record type, parse the body, and return the server name, the
raw record (header and body exactly as read), and the reader state after
the two reads. -/
def getSNI (st : BufReader) : Except String (String × List Nat × BufReader) :=
  match readFull 5 st with
  | none => .error "failed to read TLS record header"
  | some (header, st1) =>
      match header with
      | h0 :: _ :: _ :: h3 :: h4 :: [] =>
          if h0 != 22 then .error "not a TLS handshake record"
          else
            let recordLen := h3 * 256 + h4
            match readFull recordLen st1 with
            | none => .error "failed to read TLS record body"
            | some (recordBody, st2) =>
                match parseClientHelloBody recordBody with
                | .error e => .error e
                | .ok name => .ok (name, header ++ recordBody, st2)
      | _ => .error "failed to read TLS record header"

/-! ## Upstream routing and the Signal relay (internal/proxy/handler.go) -/

/-- The static routing table signalUpstreams, in source order. -/
def signalUpstreams : List (String × String) :=
  [("chat.signal.org", "chat.signal.org:443"),
   ("ud-chat.signal.org", "chat.signal.org:443"),
   ("storage.signal.org", "storage.signal.org:443"),
   ("cdn.signal.org", "cdn.signal.org:443"),
   ("cdn2.signal.org", "cdn2.signal.org:443"),
   ("cdn3.signal.org", "cdn3.signal.org:443"),
   ("cdsi.signal.org", "cdsi.signal.org:443"),
   ("contentproxy.signal.org", "contentproxy.signal.org:443"),
   ("sfu.voip.signal.org", "sfu.voip.signal.org:443"),
   ("svr2.signal.org", "svr2.signal.org:443"),
   ("svrb.signal.org", "svrb.signal.org:443"),
   ("updates.signal.org", "updates.signal.org:443"),
   ("updates2.signal.org", "updates2.signal.org:443")]

/-- Go map lookup on an association list. -/
def lookupAssoc : List (String × String) → String → Option String
  | [], _ => none
  | (k, v) :: rest, s => if s = k then some v else lookupAssoc rest s

/-- Observable outcome of handleSignalProxy for one connection. -/
inductive SignalOutcome where
  | parseFailed (msg : String)
  | denied (sni : String)
  | relayed (sni addr : String) (upstreamReceives : List Nat)
deriving DecidableEq, Repr

/-- handleSignalProxy of internal/proxy/handler.go, as the bytes it causes
the upstream to receive.  On success the upstream receives the raw
ClientHello followed by what io.Copy(upstreamConn, clientConn) reads from
the raw client connection: the chunks the connection still holds.  Bytes
already sitting in the bufio buffer after getSNI are NOT part of the copy
because the copy bypasses the buffered reader. -/
def handleSignalProxy (st : BufReader) : SignalOutcome :=
  match getSNI st with
  | .error e => .parseFailed e
  | .ok (name, raw, st2) =>
      match lookupAssoc signalUpstreams (toLowerStr name) with
      | none => .denied name
      | some addr => .relayed name addr (raw ++ st2.chunks.flatten)

/-- Bytes the client receives on the Signal path, given what the upstream
answers: the relay copies the upstream answer, and the error paths of
handleSignalProxy return before any write to the client. -/
def toClientOnSignalPath (o : SignalOutcome) (upstreamReply : List Nat) : List Nat :=
  match o with
  | .relayed _ _ _ => upstreamReply
  | _ => []

/-- HandleConnection restricted to the upstream-facing effect: sniff the
fresh buffered reader over the connection chunks and, on the Signal path,
run handleSignalProxy; answer the address dialed and the bytes the
upstream receives, or none when nothing is dialed. -/
def handleConnectionUpstream (chunks : List (List Nat)) : Option (String × List Nat) :=
  match sniffProtocol ⟨[], chunks⟩ with
  | (Protocol.ProtoSignalTLS, st1) =>
      match handleSignalProxy st1 with
      | .relayed _ addr bytes => some (addr, bytes)
      | _ => none
  | _ => none

/-! ## Calendar arithmetic and RFC 1123 formatting (time.Format) -/

/-- Civil date from a count of days since the Unix epoch (standard
era-based conversion). -/
def civilFromDays (z0 : Int) : Int × Nat × Nat :=
  let z := z0 + 719468
  let era := z.fdiv 146097
  let doe := (z - era * 146097).toNat
  let yoe := (doe - doe / 1460 + doe / 36524 - doe / 146096) / 365
  let doy := doe - (365 * yoe + yoe / 4 - yoe / 100)
  let mp := (5 * doy + 2) / 153
  let d := doy - (153 * mp + 2) / 5 + 1
  let m := if mp < 10 then mp + 3 else mp - 9
  (Int.ofNat yoe + era * 400 + (if m ≤ 2 then 1 else 0), m, d)

/-- Days since the Unix epoch of a civil date (standard era-based
conversion). -/
def daysFromCivil (y : Int) (m d : Nat) : Int :=
  let yAdj := y - (if m ≤ 2 then 1 else 0)
  let era := yAdj.fdiv 400
  let yoe := (yAdj - era * 400).toNat
  let mp := if 2 < m then m - 3 else m + 9
  let doy := (153 * mp + 2) / 5 + d - 1
  let doe := yoe * 365 + yoe / 4 - yoe / 100 + doy
  era * 146097 + Int.ofNat doe - 719468

/-- Unix seconds of a civil UTC date and time. -/
def unixOfDateTime (y : Int) (m d hh mi s : Nat) : Int :=
  daysFromCivil y m d * 86400 + (hh * 3600 + mi * 60 + s)

/-- Two-digit zero padding of Format. -/
def pad2 (n : Nat) : String := if n < 10 then "0" ++ toString n else toString n

/-- Weekday name of a day count since the epoch (day 0, 1970-01-01, was a
Thursday). -/
def weekdayName (days : Int) : String :=
  (["Thu", "Fri", "Sat", "Sun", "Mon", "Tue", "Wed"].getD ((days.fmod 7).toNat) "Thu")

/-- Month name used by time.Format. -/
def monthName (m : Nat) : String :=
  (["Jan", "Feb", "Mar", "Apr", "May", "Jun", "Jul", "Aug", "Sep", "Oct", "Nov", "Dec"].getD (m - 1) "Jan")

/-- t.UTC().Format(time.RFC1123) for a Unix-seconds instant.  The layout
is Mon, 02 Jan 2006 15:04:05 MST, and the zone of a UTC time prints as
UTC. -/
def rfc1123UTC (t : Int) : String :=
  let days := t.fdiv 86400
  let sod := (t.fmod 86400).toNat
  let c := civilFromDays days
  weekdayName days ++ ", " ++ pad2 c.2.2 ++ " " ++ monthName c.2.1 ++ " " ++ toString c.1 ++ " " ++
    pad2 (sod / 3600) ++ ":" ++ pad2 (sod % 3600 / 60) ++ ":" ++ pad2 (sod % 60) ++ " UTC"

/-! ## Decoy responders (internal/stealth) -/

/-- The nginx welcome page body of internal/stealth/proxy.go (braces of
the CSS written as escapes). -/
def nginxHTMLBody : String :=
  "<!DOCTYPE html>\n<html>\n<head>\n<title>Welcome to nginx!</title>\n<style>\n    body \x7b\n        width: 35em;\n        margin: 0 auto;\n        font-family: Tahoma, Verdana, Arial, sans-serif;\n    \x7d\n</style>\n</head>\n<body>\n<h1>Welcome to nginx!</h1>\n<p>If you see this page, the nginx web server is successfully installed and\nworking. Further configuration is required.</p>\n\n<p>For online documentation and support please refer to\n<a href=\"http://nginx.org/\">nginx.org</a>.<br/>\nCommercial support is available at\n<a href=\"http://nginx.com/\">nginx.com</a>.</p>\n\n<p><em>Thank you for using nginx.</em></p>\n</body>\n</html>"

/-- The Apache2 Ubuntu default page body of internal/stealth/apache.go. -/
def apacheHTMLBody : String :=
  "<!DOCTYPE html PUBLIC \"-//W3C//DTD XHTML 1.0 Transitional//EN\" \"http://www.w3.org/TR/xhtml1/DTD/xhtml1-transitional.dtd\">\n<html xmlns=\"http://www.w3.org/1999/xhtml\">\n  <head>\n    <meta http-equiv=\"Content-Type\" content=\"text/html; charset=UTF-8\" />\n    <title>Apache2 Ubuntu Default Page: It works</title>\n    <style type=\"text/css\" media=\"screen\">\n      * \x7b\n        margin: 0px 0px 0px 0px;\n        padding: 0px 0px 0px 0px;\n      \x7d\n      body, html \x7b\n        padding: 3px 3px 3px 3px;\n        background-color: #D8DBE2;\n        font-family: Verdana, sans-serif;\n        font-size: 11pt;\n      \x7d\n    </style>\n  </head>\n  <body>\n    <div style=\"margin-left: auto; margin-right: auto; width: 760px; text-align: left;\">\n      <p style=\"text-align: center;\">\n        <b><span style=\"font-size: 14pt;\">Apache2 Ubuntu Default Page</span></b>\n      </p>\n\t  <p>\n\t    This is the default welcome page used to test the correct \n\t    operation of the Apache2 server after installation on Ubuntu systems.\n\t  </p>\n    </div>\n  </body>\n</html>"

/-- The fixed Last-Modified header value hardcoded in GetNginxResponse. -/
def nginxLastModified : String := "Tue, 01 Sep 2025 12:00:00 GMT"

/-- The Unix instant denoted by the fixed nginx Last-Modified literal,
2025-09-01 12:00:00 GMT (RFC 1123 consumers ignore the weekday field). -/
def nginxLastModifiedTime : Int := 1756728000

/-- Header lines of the fake nginx response, in the order of the Sprintf
of GetNginxResponse; Content-Length is the byte length of the body, which
for this ASCII body equals its character count. -/
def nginxHeaders (now : Int) : List (String × String) :=
  [("Server", "nginx/1.18.0 (Ubuntu)"),
   ("Date", rfc1123UTC now),
   ("Content-Type", "text/html"),
   ("Content-Length", toString nginxHTMLBody.length),
   ("Last-Modified", nginxLastModified),
   ("Connection", "close"),
   ("ETag", "\"5f4e3a9c-265\""),
   ("Accept-Ranges", "bytes")]

/-- Render a header list as HTTP header lines. -/
def renderHeaders (hs : List (String × String)) : String :=
  hs.foldr (fun kv acc => kv.1 ++ ": " ++ kv.2 ++ "\r\n" ++ acc) ""

/-- GetNginxResponse of internal/stealth/proxy.go as a function of the
current time: status line, headers and the welcome body. -/
def GetNginxResponse (now : Int) : String :=
  "HTTP/1.1 200 OK\r\n" ++ renderHeaders (nginxHeaders now) ++ "\r\n" ++ nginxHTMLBody

/-- generatePastDate of internal/stealth (time component): the current
time minus rand.Intn(365)+1 days, with the PRNG draw r reduced modulo the
bound as in math/rand. -/
def generatePastDateTime (now : Int) (r : Nat) : Int :=
  now - (((r % 365 : Nat) : Int) + 1) * 86400

/-- generatePastDate of internal/stealth: the past instant formatted with
time.RFC1123. -/
def generatePastDate (now : Int) (r : Nat) : String :=
  rfc1123UTC (generatePastDateTime now r)

/-- Header lines of the fake Apache response, in the order of the Sprintf
of GetApacheResponse. -/
def apacheHeaders (now : Int) (r : Nat) : List (String × String) :=
  [("Date", rfc1123UTC now),
   ("Server", "Apache/2.4.41 (Ubuntu)"),
   ("Last-Modified", generatePastDate now r),
   ("ETag", "\"2d-4e9a49938b880\""),
   ("Accept-Ranges", "bytes"),
   ("Content-Length", toString apacheHTMLBody.length),
   ("Vary", "Accept-Encoding"),
   ("Content-Type", "text/html"),
   ("Connection", "close")]

/-- GetApacheResponse of internal/stealth/apache.go as a function of the
current time and the PRNG draw. -/
def GetApacheResponse (now : Int) (r : Nat) : String :=
  "HTTP/1.1 200 OK\r\n" ++ renderHeaders (apacheHeaders now r) ++ "\r\n" ++ apacheHTMLBody

/-- What handleStealth does with the client connection, observationally:
write a full response, or return without writing (the none branch), or
return without writing after the unknown-mode log of the default branch.
The connection is used only for writing and for logging its remote
address; no request bytes are read in any branch. -/
inductive StealthAction where
  | respond (body : String)
  | closeSilently
  | closeUnknownMode
deriving DecidableEq, Repr

/-- handleStealth of internal/proxy/handler.go: switch on the configured
stealth mode string.  The switch has cases for nginx, apache and none
only; every other mode value, including the proxy mode of the
configuration package, falls to the default branch, which logs an
unknown-mode message and closes without invoking stealth.ProxyRequest. -/
def handleStealth (mode : String) (now : Int) (r : Nat) : StealthAction :=
  if mode = "nginx" then .respond (GetNginxResponse now)
  else if mode = "apache" then .respond (GetApacheResponse now r)
  else if mode = "none" then .closeSilently
  else .closeUnknownMode

/-- Bytes written back to the client on the HTTP path of HandleConnection:
when the sniffer classifies the stream as HTTP, the stealth responder runs
against the connection; no other path writes a decoy response. -/
def httpPathResponse (mode : String) (st : BufReader) (now : Int) (r : Nat) : String :=
  match (sniffProtocol st).1 with
  | Protocol.ProtoHTTP =>
      match handleStealth mode now r with
      | .respond s => s
      | _ => ""
  | _ => ""

/-! ## Configuration loading (internal/config) -/

/-- The flag-or-environment resolution of the domain value: the DOMAIN
variable is read when the flag value is empty. -/
def resolveDomain (flagVal envVal : String) : String :=
  if flagVal = "" then envVal else flagVal

/-- The flag-or-environment resolution of the stealth mode: the
STEALTH_MODE variable is read when the flag value is empty, or when the
flag value is nginx (the flag default) and the variable is nonempty. -/
def resolveStealthMode (flagVal envVal : String) : String :=
  if flagVal = "" ∨ (flagVal = "nginx" ∧ envVal ≠ "") then envVal else flagVal

/-- The flag-or-environment resolution of the proxy URL: the PROXY_URL
variable is read when the flag value is empty. -/
def resolveProxyURL (flagVal envVal : String) : String :=
  if flagVal = "" then envVal else flagVal

/-- The configuration record of internal/config (mode kept as its string
value). -/
structure GoConfig where
  Domain : String
  StealthMode : String
  ProxyURL : String
deriving DecidableEq, Repr

/-- Result of config.New: a configuration, or the log.Fatal exit with its
message. -/
inductive ConfigResult where
  | ok (cfg : GoConfig)
  | fatal (msg : String)
deriving DecidableEq, Repr

/-- Validation and mode switch of config.New, applied to the resolved
domain, stealth-mode and proxy-URL values.  The url.Parse call of the
source is abstracted as the parseURLScheme argument: none models a parse
error, some s the (lowercased) Scheme field of the parsed URL. -/
def configNew (parseURLScheme : String → Option String) (domain stealthMode proxyURL : String) :
    ConfigResult :=
  if domain = "" then .fatal "Domain is required"
  else
    let m := toLowerStr stealthMode
    if m = "nginx" then .ok ⟨domain, "nginx", proxyURL⟩
    else if m = "apache" then .ok ⟨domain, "apache", proxyURL⟩
    else if m = "proxy" then
      if proxyURL = "" then .fatal "Proxy URL is required for proxy stealth mode"
      else
        match parseURLScheme proxyURL with
        | none => .fatal "Invalid proxy URL"
        | some scheme =>
            if scheme ≠ "http" ∧ scheme ≠ "https" then
              .fatal "Proxy URL must have a scheme of http or https"
            else .ok ⟨domain, "proxy", proxyURL⟩
    else if m = "none" then .ok ⟨domain, "none", proxyURL⟩
    else .fatal ("Invalid stealth mode: " ++ stealthMode)

/-! ## Concrete ClientHello records for evaluation -/

/-- Big-endian two-byte encoding of a length below 65536. -/
def u16be (n : Nat) : List Nat := [n / 256, n % 256]

/-- Big-endian three-byte encoding of a length below 2^24. -/
def u24be (n : Nat) : List Nat := [n / 65536, n / 256 % 256, n % 256]

/-- One-byte length-prefixed vector. -/
def lv8 (xs : List Nat) : List Nat := xs.length :: xs

/-- Two-byte length-prefixed vector. -/
def lv16 (xs : List Nat) : List Nat := u16be xs.length ++ xs

/-- Three-byte length-prefixed vector. -/
def lv24 (xs : List Nat) : List Nat := u24be xs.length ++ xs

/-- The server_name extension (RFC 6066) for one host_name entry:
extension type 0, then the length-prefixed server name list holding name
type 0 and the length-prefixed host name. -/
def sniExt (host : List Nat) : List Nat := u16be 0 ++ lv16 (lv16 (0 :: lv16 host))

/-- A ClientHello record serialized per RFC 8446 section 4.1.2, the format
the specification describes: record header (handshake type 22, version
3.1, length), handshake type 1, length-prefixed body with client version
3.3, a 32-byte random, the length-prefixed legacy session id, one cipher
suite, the null compression method, and the extensions block holding
exactly the server_name extension. -/
def buildClientHello (sessionId host : List Nat) : List Nat :=
  let ch := [3, 3] ++ List.replicate 32 0 ++ lv8 sessionId ++ lv16 [192, 43] ++ lv8 [0] ++
    lv16 (sniExt host)
  let hs := 1 :: lv24 ch
  22 :: 3 :: 1 :: (u16be hs.length ++ hs)

/-- A well-formed ClientHello for chat.signal.org with an empty legacy
session id. -/
def chatHello : List Nat := buildClientHello [] (strBytes "chat.signal.org")

/-- A well-formed ClientHello for chat.signal.org with the 32-byte legacy
session id common to TLS 1.3 clients (all-zero bytes). -/
def chatHelloSid32 : List Nat := buildClientHello (List.replicate 32 0) (strBytes "chat.signal.org")

/-- A well-formed ClientHello for example.com, a host outside the Signal
allow-list. -/
def exampleHello : List Nat := buildClientHello [] (strBytes "example.com")

/-- All bytes one client connection delivers before EOF: the chunks in
order. -/
def clientSends (chunks : List (List Nat)) : List Nat := chunks.flatten

/-! ## Lemmas about the buffered reader -/

theorem fillLoop_avail (n : Nat) (chunks : List (List Nat)) (buf : List Nat) :
    (fillLoop n buf chunks).1 ++ (fillLoop n buf chunks).2.flatten = buf ++ chunks.flatten := by
  induction chunks generalizing buf with
  | nil => simp [fillLoop]
  | cons c cs ih =>
      by_cases h : n ≤ buf.length
      · simp [fillLoop, h]
      · simp only [fillLoop, if_neg h]
        rw [ih (buf ++ c)]
        simp [List.append_assoc]

theorem fillLoop_post (n : Nat) (chunks : List (List Nat)) (buf : List Nat) :
    n ≤ (fillLoop n buf chunks).1.length ∨ (fillLoop n buf chunks).2 = [] := by
  induction chunks generalizing buf with
  | nil => right; simp [fillLoop]
  | cons c cs ih =>
      by_cases h : n ≤ buf.length
      · left; simp [fillLoop, h]
      · simpa only [fillLoop, if_neg h] using ih (buf ++ c)

theorem fillLoop_noop (n : Nat) (buf : List Nat) (chunks : List (List Nat))
    (h : n ≤ buf.length ∨ chunks = []) : fillLoop n buf chunks = (buf, chunks) := by
  cases chunks with
  | nil => simp [fillLoop]
  | cons c cs =>
      rcases h with h | h
      · simp [fillLoop, h]
      · simp at h

theorem fillTo_avail (n : Nat) (st : BufReader) : availBytes (fillTo n st) = availBytes st := by
  simpa [availBytes, fillTo] using fillLoop_avail n st.chunks st.buf

theorem fillTo_idem (n : Nat) (st : BufReader) : fillTo n (fillTo n st) = fillTo n st := by
  have hnoop := fillLoop_noop n (fillLoop n st.buf st.chunks).1 (fillLoop n st.buf st.chunks).2
    (fillLoop_post n st.chunks st.buf)
  simp [fillTo, hnoop]

theorem fillTo_take (n : Nat) (st : BufReader) :
    (fillTo n st).buf.take n = (availBytes st).take n := by
  rw [← fillTo_avail n st]
  rcases fillLoop_post n st.chunks st.buf with h | h
  · have hb : n ≤ (fillTo n st).buf.length := h
    rw [show availBytes (fillTo n st) = (fillTo n st).buf ++ (fillTo n st).chunks.flatten from rfl,
      List.take_append_of_le_length hb]
  · have hc : (fillTo n st).chunks = [] := h
    rw [show availBytes (fillTo n st) = (fillTo n st).buf ++ (fillTo n st).chunks.flatten from rfl,
      hc]
    simp

/-! ## Lemmas about the sniffer classification -/

theorem startsWithHTTPMethod_head_ne22 (bs : List Nat) (h : startsWithHTTPMethod bs = true) :
    bs.head? ≠ some 22 := by
  have eG : strBytes "GET " = [71, 69, 84, 32] := by decide
  have ePo : strBytes "POST " = [80, 79, 83, 84, 32] := by decide
  have eHe : strBytes "HEAD " = [72, 69, 65, 68, 32] := by decide
  have ePu : strBytes "PUT " = [80, 85, 84, 32] := by decide
  have eDe : strBytes "DELETE " = [68, 69, 76, 69, 84, 69, 32] := by decide
  have eOp : strBytes "OPTIONS " = [79, 80, 84, 73, 79, 78, 83, 32] := by decide
  have ePa : strBytes "PATCH " = [80, 65, 84, 67, 72, 32] := by decide
  have eCo : strBytes "CONNECT " = [67, 79, 78, 78, 69, 67, 84, 32] := by decide
  cases bs with
  | nil =>
      simp [startsWithHTTPMethod, beginsWith, eG, ePo, eHe, ePu, eDe, eOp, ePa, eCo,
        beq_iff_eq] at h
  | cons b tl =>
      intro hc
      have hb : b = 22 := by simpa using hc
      subst hb
      simp [startsWithHTTPMethod, beginsWith, eG, ePo, eHe, ePu, eDe, eOp, ePa, eCo,
        beq_iff_eq, List.take_succ_cons] at h

theorem classify8_http (peeked : List Nat) (hl : peeked.length = 8)
    (hm : startsWithHTTPMethod peeked = true) : classify8 peeked = Protocol.ProtoHTTP := by
  cases peeked with
  | nil => simp at hl
  | cons b rest =>
      have hb : ¬ b = 22 := by
        have h22 := startsWithHTTPMethod_head_ne22 _ hm
        simpa using h22
      simp [classify8, hl, hm, hb]

theorem sniffProtocol_fst (st : BufReader) :
    (sniffProtocol st).1 = classify8 ((availBytes st).take 8) := by
  simp [sniffProtocol, fillTo_take]

/-! ## Lemma about the routing table lookup -/

theorem lookupAssoc_isSome_iff (l : List (String × String)) (s : String) :
    (lookupAssoc l s).isSome ↔ s ∈ l.map Prod.fst := by
  induction l with
  | nil => simp [lookupAssoc]
  | cons kv rest ih =>
      obtain ⟨k, v⟩ := kv
      by_cases h : s = k
      · simp [lookupAssoc, h]
      · simp [lookupAssoc, h, ih]

/-! ## Claims -/

/-- Claim C1 (code bug): the upstream is supposed to receive the raw
ClientHello followed by every byte the client sends afterwards, but when
the client delivers the ClientHello together with one trailing byte in a
single read, that byte is pulled into the bufio buffer during the sniff,
is not consumed by the parser, and is then lost because the
client-to-upstream copy reads the raw connection instead of the buffered
reader: the upstream receives the bare ClientHello only. -/
theorem c1_buffered_bytes_lost :
    clientSends [chatHello ++ [171]] = chatHello ++ [171] ∧
    handleConnectionUpstream [chatHello ++ [171]] = some ("chat.signal.org:443", chatHello) ∧
    chatHello ++ [171] ≠ chatHello := by
  refine ⟨by decide, by decide, fun h => ?_⟩
  have hl := congrArg List.length h
  simp at hl

/-- Claim C2 (code bug): with stealth mode proxy, handleStealth falls to
the default branch of its switch, closing the connection without reading
the request, without contacting the disguise target, and without the 502
response; stealth.ProxyRequest is never invoked. -/
theorem c2_proxy_mode_never_dispatched (now : Int) (r : Nat) :
    handleStealth "proxy" now r = StealthAction.closeUnknownMode ∧
    httpPathResponse "proxy" ⟨[], [strBytes "GET / HTTP/1.1"]⟩ now r = "" := by
  exact ⟨rfl, rfl⟩

/-- Claim C3 counterexample: the seven-byte stream GET /ab begins with the
method token GET followed by a space and ends in EOF before eight bytes,
yet the sniffer classifies it ProtoUnknown, not HTTP: the short-read
branch of sniffProtocol skips the method check. -/
theorem c3_short_read_counterexample :
    (sniffProtocol ⟨[], [strBytes "GET /ab"]⟩).1 = Protocol.ProtoUnknown ∧
    beginsWith (strBytes "GET ") (strBytes "GET /ab") = true ∧
    (strBytes "GET /ab").length < 8 := by decide

/-- Claim C3 (amended): a stream offering at least eight bytes whose first
eight bytes begin with one of the HTTP method tokens is classified HTTP;
streams shorter than eight bytes reach the EOF branch, which recognises
only the TLS handshake byte and otherwise yields UNKNOWN. -/
theorem c3_http_method_amended (st : BufReader)
    (hlen : 8 ≤ (availBytes st).length)
    (hm : startsWithHTTPMethod ((availBytes st).take 8) = true) :
    (sniffProtocol st).1 = Protocol.ProtoHTTP := by
  rw [sniffProtocol_fst]
  refine classify8_http _ ?_ hm
  simp [List.length_take]
  omega

/-- Witness for the amended claim C3 at a concrete fourteen-byte GET
request line. -/
theorem c3_http_method_amended_witness :
    8 ≤ (availBytes ⟨[], [strBytes "GET / HTTP/1.1"]⟩).length ∧
    (sniffProtocol ⟨[], [strBytes "GET / HTTP/1.1"]⟩).1 = Protocol.ProtoHTTP :=
  ⟨by decide, c3_http_method_amended ⟨[], [strBytes "GET / HTTP/1.1"]⟩ (by decide) (by decide)⟩

/-- Claim C4 counterexample: the nginx decoy does not draw its
Last-Modified from the last 365 days; it hardcodes the literal for
2025-09-01 12:00:00 GMT.  At the concrete invocation time 2025-08-31
12:00:00 UTC that header instant lies strictly in the future,
contradicting the claim for the NGINX mode. -/
theorem c4_nginx_fixed_date_counterexample :
    nginxLastModified = "Tue, 01 Sep 2025 12:00:00 GMT" ∧
    List.lookup "Last-Modified" (nginxHeaders (unixOfDateTime 2025 8 31 12 0 0)) =
      some nginxLastModified ∧
    nginxLastModifiedTime = unixOfDateTime 2025 9 1 12 0 0 ∧
    unixOfDateTime 2025 8 31 12 0 0 < nginxLastModifiedTime := by
  refine ⟨rfl, rfl, by decide, by decide⟩

/-- Claim C4 (amended): the APACHE decoy satisfies the property: for every
invocation time and PRNG draw its Last-Modified instant, current time
minus (draw mod 365 plus one) days, is strictly in the past and at most
365 days old, and it is what the Last-Modified header carries; the NGINX
decoy instead emits the fixed date 2025-09-01 12:00:00 GMT. -/
theorem c4_apache_past_window_amended (now : Int) (r : Nat) :
    generatePastDateTime now r < now ∧
    now - 365 * 86400 ≤ generatePastDateTime now r ∧
    List.lookup "Last-Modified" (apacheHeaders now r) =
      some (rfc1123UTC (generatePastDateTime now r)) := by
  refine ⟨?_, ?_, rfl⟩
  · unfold generatePastDateTime
    omega
  · unfold generatePastDateTime
    omega

/-- Claim C5 counterexample: an explicitly supplied -stealth-mode nginx
flag value is overridden by a nonempty STEALTH_MODE environment variable,
because the fallback condition treats the value nginx as possibly unset. -/
theorem c5_env_overrides_explicit_nginx :
    resolveStealthMode "nginx" "apache" = "apache" ∧ ("apache" : String) ≠ "nginx" := by decide

/-- Claim C5 (amended): DOMAIN and PROXY_URL are consulted exactly when
the respective flag value is empty; STEALTH_MODE is consulted when the
stealth-mode flag value is empty or when it equals nginx (the flag
default, indistinguishable from an explicit nginx) and the variable is
nonempty, so an explicit -stealth-mode nginx is overridden. -/
theorem c5_env_fallback_amended (fd ed fs es fp ep : String) :
    (fd ≠ "" → resolveDomain fd ed = fd) ∧
    resolveDomain "" ed = ed ∧
    (fp ≠ "" → resolveProxyURL fp ep = fp) ∧
    resolveProxyURL "" ep = ep ∧
    (fs ≠ "" → fs ≠ "nginx" → resolveStealthMode fs es = fs) ∧
    (es ≠ "" → resolveStealthMode "nginx" es = es) ∧
    resolveStealthMode "nginx" "" = "nginx" ∧
    resolveStealthMode "" es = es := by
  refine ⟨fun h => ?_, ?_, fun h => ?_, ?_, fun h1 h2 => ?_, fun h => ?_, ?_, ?_⟩ <;>
    simp [resolveDomain, resolveProxyURL, resolveStealthMode, *]

/-- Witness for the amended claim C5 at concrete flag and environment
values. -/
theorem c5_env_fallback_amended_witness :
    resolveDomain "flag.com" "env.com" = "flag.com" ∧
    resolveStealthMode "apache" "none" = "apache" ∧
    resolveStealthMode "nginx" "apache" = "apache" :=
  ⟨(c5_env_fallback_amended "flag.com" "env.com" "apache" "none" "" "").1 (by decide),
   (c5_env_fallback_amended "flag.com" "env.com" "apache" "none" "" "").2.2.2.2.1
     (by decide) (by decide),
   (c5_env_fallback_amended "" "" "" "apache" "" "").2.2.2.2.2.1 (by decide)⟩

/-- Claim C6 (code bug): getSNI skips the legacy session id with Skip(1),
consuming only its length byte.  A well-formed ClientHello carrying SNI
chat.signal.org with the 32-byte legacy session id of TLS 1.3 clients is
rejected with SNI not found, because the parser misreads the session-id
bytes as the cipher-suite, compression and extensions vectors; the same
ClientHello with an empty session id parses correctly, returning the name
and the raw record. -/
theorem c6_session_id_skip_misparse :
    getSNI ⟨[], [chatHelloSid32]⟩ = Except.error "SNI not found in ClientHello" ∧
    getSNI ⟨[], [chatHello]⟩ = Except.ok ("chat.signal.org", chatHello, (⟨[], []⟩ : BufReader)) := by
  exact ⟨by decide, by decide⟩

/-- Claim C7: once getSNI returns a server name, an upstream is selected
iff the lowercased name is a key of the static allow-list, and when it is
not, the outcome is a denial in which nothing is sent to any upstream and
nothing is written back to the client. -/
theorem c7_allowlist_routing (st : BufReader) (name : String) (raw : List Nat) (st2 : BufReader)
    (hparse : getSNI st = Except.ok (name, raw, st2)) :
    ((lookupAssoc signalUpstreams (toLowerStr name)).isSome ↔
      toLowerStr name ∈ signalUpstreams.map Prod.fst) ∧
    (lookupAssoc signalUpstreams (toLowerStr name) = none →
      handleSignalProxy st = SignalOutcome.denied name ∧
      ∀ reply, toClientOnSignalPath (handleSignalProxy st) reply = []) := by
  refine ⟨lookupAssoc_isSome_iff _ _, fun hnone => ?_⟩
  have hden : handleSignalProxy st = SignalOutcome.denied name := by
    simp [handleSignalProxy, hparse, hnone]
  exact ⟨hden, fun reply => by simp [hden, toClientOnSignalPath]⟩

/-- Witness for claim C7 at a ClientHello whose SNI example.com is not on
the allow-list: the connection is denied and the client receives nothing
even when the (never dialed) upstream would have answered. -/
theorem c7_allowlist_routing_witness :
    handleSignalProxy ⟨[], [exampleHello]⟩ = SignalOutcome.denied "example.com" ∧
    toClientOnSignalPath (handleSignalProxy ⟨[], [exampleHello]⟩) [1, 2, 3] = [] := by
  have h := (c7_allowlist_routing ⟨[], [exampleHello]⟩ "example.com" exampleHello
    ⟨[], []⟩ (by decide)).2 (by decide)
  exact ⟨h.1, h.2 [1, 2, 3]⟩

/-- Claim C8: the sniffer consumes nothing: after sniffProtocol the next
reader of the buffered stream observes exactly the byte sequence that was
available before, and sniffing again classifies identically. -/
theorem c8_sniffer_nonconsuming (st : BufReader) :
    availBytes (sniffProtocol st).2 = availBytes st ∧
    (sniffProtocol (sniffProtocol st).2).1 = (sniffProtocol st).1 := by
  constructor
  · simpa [sniffProtocol] using fillTo_avail 8 st
  · simp [sniffProtocol, fillTo_idem]

/-- Claim C9 counterexample: the mode token APACHE is outside the set of
the four lowercase tokens, yet configuration loading accepts it, because
the switch lowercases the token first. -/
theorem c9_uppercase_mode_counterexample :
    configNew (fun _ => none) "example.com" "APACHE" "" =
      ConfigResult.ok ⟨"example.com", "apache", ""⟩ ∧
    ¬ ("APACHE" = "none" ∨ "APACHE" = "nginx" ∨ "APACHE" = "apache" ∨ "APACHE" = "proxy") := by
  decide

/-- Claim C9 (amended): configuration loading succeeds iff the domain is
nonempty, the lowercased mode token is one of nginx, apache, proxy, none,
and, when the lowercased token is proxy, the proxy URL is nonempty,
parses, and its parsed scheme is http or https; it fails exactly
otherwise. -/
theorem c9_validation_amended (parse : String → Option String) (d m p : String) :
    (∃ cfg, configNew parse d m p = ConfigResult.ok cfg) ↔
      d ≠ "" ∧
      (toLowerStr m = "nginx" ∨ toLowerStr m = "apache" ∨ toLowerStr m = "proxy" ∨
        toLowerStr m = "none") ∧
      (toLowerStr m = "proxy" →
        p ≠ "" ∧ ∃ scheme, parse p = some scheme ∧ (scheme = "http" ∨ scheme = "https")) := by
  by_cases hd : d = ""
  · simp [configNew, hd]
  · by_cases h1 : toLowerStr m = "nginx"
    · simp [configNew, hd, h1]
    · by_cases h2 : toLowerStr m = "apache"
      · simp [configNew, hd, h1, h2]
      · by_cases h3 : toLowerStr m = "proxy"
        · by_cases hp : p = ""
          · simp [configNew, hd, h1, h2, h3, hp]
          · cases hpp : parse p with
            | none => simp [configNew, hd, h1, h2, h3, hp, hpp]
            | some scheme =>
                by_cases hs : scheme = "http" ∨ scheme = "https"
                · have hss : ¬ (scheme ≠ "http" ∧ scheme ≠ "https") := by tauto
                  simp [configNew, hd, h1, h2, h3, hp, hpp, hss]
                  tauto
                · have hss : scheme ≠ "http" ∧ scheme ≠ "https" := by tauto
                  simp [configNew, hd, h1, h2, h3, hp, hpp, hss]
        · by_cases h4 : toLowerStr m = "none"
          · simp [configNew, hd, h1, h2, h3, h4]
          · simp [configNew, hd, h1, h2, h3, h4]

/-- Claim C10: the nginx and apache decoy responders never read the
request: with the clock and the PRNG draw fixed, any two connections the
sniffer classifies as HTTP receive identical response bytes, whatever the
request bytes beyond the sniffed prefix and even when the request is
incomplete. -/
theorem c10_decoy_request_independent (st1 st2 : BufReader) (now : Int) (r : Nat) (mode : String)
    (h1 : (sniffProtocol st1).1 = Protocol.ProtoHTTP)
    (h2 : (sniffProtocol st2).1 = Protocol.ProtoHTTP) :
    httpPathResponse mode st1 now r = httpPathResponse mode st2 now r := by
  simp [httpPathResponse, h1, h2]

/-- Witness for claim C10: a complete GET request and an incomplete POST
request receive the same nginx decoy bytes at a fixed clock and draw. -/
theorem c10_decoy_request_independent_witness :
    (sniffProtocol ⟨[], [strBytes "GET / HTTP/1.1\r\nHost: a\r\n\r\n"]⟩).1 =
      Protocol.ProtoHTTP ∧
    (sniffProtocol ⟨[], [strBytes "POST /other HTTP/1.1\r\n"]⟩).1 = Protocol.ProtoHTTP ∧
    httpPathResponse "nginx" ⟨[], [strBytes "GET / HTTP/1.1\r\nHost: a\r\n\r\n"]⟩ 1756641600 7 =
      httpPathResponse "nginx" ⟨[], [strBytes "POST /other HTTP/1.1\r\n"]⟩ 1756641600 7 :=
  ⟨by decide, by decide,
    c10_decoy_request_independent _ _ 1756641600 7 "nginx" (by decide) (by decide)⟩
